import Mathlib

/-!
Shallow embedding of the estate-agency multi-agent backend
(src/backend/agents.py and src/backend/data_loader.py).

Python dictionaries with a fixed key set are modelled as Lean structures,
pandas rows as records, numbers as rationals (exact arithmetic in place of
Python floats), and the fallible lookups as Option-valued functions.
Wall-clock timestamps (started_at, completed_at, datetime.now) are taken
as explicit string parameters, and the LLM call result is taken as an
explicit string or abstract-parse parameter, since both are external
collaborators of the core.
-/

namespace EstateDemo

/-! ### String primitives

Lean core string routines such as String.toLower, String.splitOn and the
String order are compiled with well-founded recursion and do not reduce
inside the kernel, so the embedding carries its own structurally recursive
versions operating on the underlying character lists. They model the
Python primitives str.lower (ASCII range, which covers every name the
code compares), str.split, str.strip and the lexicographic string order
on code points used by the > operator on str.
-/

/-- Models Python str.lower on the ASCII range. -/
def lowerStr (s : String) : String :=
  ⟨s.data.map Char.toLower⟩

/-- Lexicographic order on character lists by code point. -/
def lexLtB : List Char → List Char → Bool
  | [], [] => false
  | [], _ :: _ => true
  | _ :: _, [] => false
  | a :: as, b :: bs => if a < b then true else if b < a then false else lexLtB as bs

/-- Models the Python expression a > b on strings: lexicographic
comparison by code point. -/
def strGt (a b : String) : Bool :=
  lexLtB b.data a.data

/-- Fuel-indexed splitter: cuts the list at each non-overlapping, leftmost
occurrence of sep, like Python str.split with a separator argument. -/
def splitFuel (sep : List Char) : Nat → List Char → List Char → List (List Char)
  | 0, l, acc => [acc.reverse ++ l]
  | fuel+1, l, acc =>
    match l with
    | [] => [acc.reverse]
    | c :: rest =>
      if sep.isPrefixOf (c :: rest) then
        acc.reverse :: splitFuel sep fuel (List.drop (sep.length - 1) rest) []
      else
        splitFuel sep fuel rest (c :: acc)

/-- Models Python s.split(sep) for a non-empty separator. -/
def splitOnStr (s sep : String) : List String :=
  (splitFuel sep.data (s.data.length + 1) s.data []).map (fun l => ⟨l⟩)

/-- Models Python s.strip(): drops whitespace on both ends. -/
def stripStr (s : String) : String :=
  ⟨((s.data.dropWhile Char.isWhitespace).reverse.dropWhile Char.isWhitespace).reverse⟩

/-- Models Python int() applied to a number: truncation toward zero. -/
def pyInt (q : ℚ) : ℤ :=
  if 0 ≤ q then ⌊q⌋ else ⌈q⌉

/-! ### Data model (rows of the cached CSV tables, data_loader.py) -/

/-- A row of the properties table, restricted to the fields the agent
code reads. -/
structure Property where
  property_id : String
  asking_price : ℚ
  epc_rating : String
  epc_expiry : String
deriving DecidableEq

/-- A row of the buyers table, restricted to the fields the agent code
reads. -/
structure Buyer where
  buyer_id : String
  first_name : String
  last_name : String
  max_budget : ℚ
  buyer_type : String
  priority_level : String
  financial_status : String
deriving DecidableEq

/-- A row of the vendors table, restricted to the fields the agent code
reads. -/
structure Vendor where
  vendor_id : String
  aml_status : String
  pep_check : String
  sanctions_check : String
  aml_certificate_id : String
deriving DecidableEq

/-- DataLoader.get_property: first row whose property_id matches, none
when the frame has no such row (the empty dict is falsy in the callers). -/
def get_property (props : List Property) (pid : String) : Option Property :=
  props.find? (fun p => p.property_id == pid)

/-- DataLoader.get_vendor. -/
def get_vendor (vendors : List Vendor) (vid : String) : Option Vendor :=
  vendors.find? (fun v => v.vendor_id == vid)

/-- DataLoader.get_buyer. -/
def get_buyer (buyers : List Buyer) (bid : String) : Option Buyer :=
  buyers.find? (fun b => b.buyer_id == bid)

/-- The optional keys of the criteria dict accepted by
DataLoader.search_buyers; an absent dict key is none. -/
structure BuyerCriteria where
  min_budget : Option ℚ := none
  max_budget : Option ℚ := none
  buyer_type : Option String := none
  priority_level : Option String := none
  financial_status : Option String := none
deriving DecidableEq

/-- DataLoader.search_buyers: successive pandas row filters, in the order
the source applies them; both budget filters compare the max_budget
column of the row. -/
def search_buyers (buyers : List Buyer) (c : BuyerCriteria) : List Buyer :=
  let r := buyers
  let r := match c.min_budget with
    | some m => r.filter (fun b => m ≤ b.max_budget)
    | none => r
  let r := match c.max_budget with
    | some m => r.filter (fun b => b.max_budget ≤ m)
    | none => r
  let r := match c.buyer_type with
    | some t => r.filter (fun b => b.buyer_type == t)
    | none => r
  let r := match c.priority_level with
    | some t => r.filter (fun b => b.priority_level == t)
    | none => r
  let r := match c.financial_status with
    | some t => r.filter (fun b => b.financial_status == t)
    | none => r
  r

/-- The context keys that the specialist agent handlers read. -/
structure AgentContext where
  property_id : Option String := none
  vendor_id : Option String := none
  buyer_id : Option String := none
deriving DecidableEq

/-! ### IntelligenceAgent (agents.py) -/

/-- IntelligenceAgent._calculate_match_score, translated line by line:
base 50, a budget band bonus, a buyer-type bonus, a hot-priority bonus,
capped at 100. -/
def calculate_match_score (property : Property) (buyer : Buyer) : ℤ :=
  let score : ℤ := 50
  let asking := property.asking_price
  let budget := buyer.max_budget
  let score := if asking ≤ budget then score + 20
    else if asking * (95 / 100) ≤ budget then score + 10
    else score
  let score := if buyer.buyer_type = "chain_free_cash" then score + 20
    else if buyer.buyer_type = "first_time_buyer" then score + 15
    else score
  let score := if buyer.priority_level = "hot" then score + 10
    else score
  min score 100

/-- The budget band term of the spec formula: 20 at or above asking, 10
at or above 95 percent of asking, else 0. -/
def budget_bonus (property : Property) (buyer : Buyer) : ℤ :=
  if property.asking_price ≤ buyer.max_budget then 20
  else if property.asking_price * (95 / 100) ≤ buyer.max_budget then 10
  else 0

/-- The buyer-type term of the spec formula. -/
def type_bonus (buyer : Buyer) : ℤ :=
  if buyer.buyer_type = "chain_free_cash" then 20
  else if buyer.buyer_type = "first_time_buyer" then 15
  else 0

/-- The hot-priority term of the spec formula. -/
def hot_bonus (buyer : Buyer) : ℤ :=
  if buyer.priority_level = "hot" then 10 else 0

/-- Modelled from the spec wording of the match-score formula (section 4.3
of the spec): start at 50, add the three independent bonus terms, clamp to
a maximum of 100. Stated separately so the source translation above can
be compared against it. -/
def spec_match_score (property : Property) (buyer : Buyer) : ℤ :=
  min (50 + budget_bonus property buyer + type_bonus buyer + hot_bonus buyer) 100

/-- One entry of the scored list built by IntelligenceAgent._match_buyers. -/
structure ScoredMatch where
  buyer_id : String
  name : String
  score : ℤ
  buyer_type : String
  priority : String
deriving DecidableEq

/-- The descending-score comparison used to sort the scored list; Python
list.sort with a score key and reverse set is the stable sort under this
relation. -/
def scoredGe (a b : ScoredMatch) : Prop :=
  b.score ≤ a.score

instance : DecidableRel scoredGe :=
  fun a b => inferInstanceAs (Decidable (b.score ≤ a.score))

instance : IsTotal ScoredMatch scoredGe :=
  ⟨fun a b => le_total b.score a.score⟩

instance : IsTrans ScoredMatch scoredGe :=
  ⟨fun _ _ _ hab hbc => le_trans hbc hab⟩

/-- The search criteria _match_buyers builds from the asking price:
min_budget int(asking times 0.9) and max_budget int(asking times 1.2). -/
def match_criteria (asking : ℚ) : BuyerCriteria :=
  { min_budget := some ((pyInt (asking * (9 / 10)) : ℤ) : ℚ),
    max_budget := some ((pyInt (asking * (12 / 10)) : ℤ) : ℚ) }

/-- The row the scored list records for one buyer. -/
def mkScored (prop : Property) (b : Buyer) : ScoredMatch :=
  { buyer_id := b.buyer_id,
    name := b.first_name ++ " " ++ b.last_name,
    score := calculate_match_score prop b,
    buyer_type := b.buyer_type,
    priority := b.priority_level }

/-- The scored list of _match_buyers: the first 15 rows of the criteria
search, each scored. -/
def scored_candidates (prop : Property) (buyers : List Buyer) : List ScoredMatch :=
  ((search_buyers buyers (match_criteria prop.asking_price)).take 15).map (mkScored prop)

/-- Result shape of IntelligenceAgent._match_buyers. -/
inductive MatchResult where
  | success (matches_found : ℕ) (top_matches : List ScoredMatch)
  | error (message : String)
deriving DecidableEq

/-- IntelligenceAgent._match_buyers: resolve the property, search buyers
in the derived budget band, score the first 15, sort descending by score
(stable, as Python list.sort), return the count and the top 5. -/
def match_buyers (props : List Property) (buyers : List Buyer) (ctx : AgentContext) : MatchResult :=
  match ctx.property_id with
  | some pid =>
    match get_property props pid with
    | some prop =>
      let scored := scored_candidates prop buyers
      let sorted := List.insertionSort scoredGe scored
      .success scored.length (sorted.take 5)
    | none => .error "No property_id provided"
  | none => .error "No property_id provided"

/-- Result shape of IntelligenceAgent._assess_risk. -/
structure RiskResult where
  status : String
  risk_level : String
  risk_score : ℤ
  factors : List String
deriving DecidableEq

/-- The buyer lookup _assess_risk performs: only when the context carries
a buyer_id, and none when the id resolves to no row. -/
def risk_buyer_lookup (buyers : List Buyer) (ctx : AgentContext) : Option Buyer :=
  match ctx.buyer_id with
  | some bid => get_buyer buyers bid
  | none => none

/-- IntelligenceAgent._assess_risk: base score 20, plus 20 when a resolved
buyer is not of the chain_free_cash type; the level thresholds are
below 40 LOW, below 60 MEDIUM, otherwise HIGH. -/
def assess_risk (buyers : List Buyer) (ctx : AgentContext) : RiskResult :=
  let sf : ℤ × List String :=
    match risk_buyer_lookup buyers ctx with
    | some b =>
      if b.buyer_type = "chain_free_cash" then (20, ["✅ Chain-free cash buyer"])
      else (20 + 20, ["⚠️ Chain buyer"])
    | none => (20, [])
  let risk_level := if sf.1 < 40 then "LOW" else if sf.1 < 60 then "MEDIUM" else "HIGH"
  { status := "success", risk_level := risk_level, risk_score := sf.1, factors := sf.2 }

/-! ### ComplianceAgent (agents.py) -/

/-- Result shape of ComplianceAgent._check_aml. -/
inductive AmlResult where
  | success (aml_passed : Bool) (aml_status : String) (certificate_id : String)
  | error (message : String)
deriving DecidableEq

/-- ComplianceAgent._check_aml: the pass flag is the conjunction of the
three vendor field checks, exactly as the all([...]) call in the source. -/
def check_aml (vendors : List Vendor) (ctx : AgentContext) : AmlResult :=
  match ctx.vendor_id with
  | some vid =>
    match get_vendor vendors vid with
    | some v =>
      let passed := (v.aml_status == "verified")
        && (v.pep_check == "clear")
        && (v.sanctions_check == "clear")
      .success passed v.aml_status v.aml_certificate_id
    | none => .error "No vendor_id provided"
  | none => .error "No vendor_id provided"

/-- Result shape of ComplianceAgent._validate_epc. -/
inductive EpcResult where
  | success (epc_valid : Bool) (epc_rating : String) (epc_expiry : String)
  | error (message : String)
deriving DecidableEq

/-- ComplianceAgent._validate_epc: valid when the expiry string is
non-empty and compares lexicographically greater than the current date
rendered as YYYY-MM-DD; today is a parameter standing for
datetime.now().strftime. -/
def validate_epc (today : String) (props : List Property) (ctx : AgentContext) : EpcResult :=
  match ctx.property_id with
  | some pid =>
    match get_property props pid with
    | some prop =>
      let expiry := prop.epc_expiry
      let valid := if expiry ≠ "" then strGt expiry today else false
      .success valid prop.epc_rating expiry
    | none => .error "No property_id provided"
  | none => .error "No property_id provided"

/-! ### OrchestratorAgent: plan synthesis (analyze_query) -/

/-- One step of a plan, with the dict defaults the source applies when a
key is absent (step 0, empty agent, empty action). -/
structure PlanStep where
  step : ℕ
  agent : String
  action : String
deriving DecidableEq

/-- The plan dict, restricted to the keys the embedded code reads, with
absent optional keys as none or an empty list. estimated_cost_usd is kept
as an exact rational. -/
structure Plan where
  plan_id : String := ""
  intent : String := ""
  workflow_type : String := ""
  plan_name : String := ""
  agents_required : List String := []
  steps : List PlanStep := []
  estimated_time_ms : ℕ := 0
  estimated_cost_usd : ℚ := 0
  human_approval_required : Bool := false
  entities_involved : List (String × String) := []
  context : List (String × String) := []
  original_query : Option String := none
  raw_response : Option String := none
deriving DecidableEq

/-- The Markdown code-fence stripping applied before the JSON parse in
OrchestratorAgent.analyze_query: the text between the first json fence
opener and the following fence, or between the first two plain fences. -/
def strip_fences (response : String) : String :=
  if (splitOnStr response "```json").length > 1 then
    (splitOnStr ((splitOnStr response "```json").getD 1 "") "```").headD ""
  else if (splitOnStr response "```").length > 1 then
    (splitOnStr ((splitOnStr response "```").getD 1 "") "```").headD ""
  else response

/-- The default plan analyze_query falls back to when the model response
does not parse; the attached raw_response is the fence-stripped response
string, the very string whose parse failed. -/
def default_plan (query response : String) : Plan :=
  { intent := query,
    workflow_type := "custom",
    plan_id := "CUSTOM",
    plan_name := "Custom Workflow",
    agents_required := ["orchestrator"],
    steps := [{ step := 1, agent := "orchestrator", action := "Process query" }],
    estimated_time_ms := 5000,
    estimated_cost_usd := 1 / 10,
    human_approval_required := true,
    raw_response := some response }

/-- Outcome of analyze_query: either the parsed plan as the parser
produced it, or the fallback default plan. -/
inductive AnalyzeOutcome (π : Type) where
  | parsed (plan : π)
  | fallback (plan : Plan)
deriving DecidableEq

/-- OrchestratorAgent.analyze_query, downstream of the single LLM call:
the response text is a parameter, json.loads is an abstract parse
parameter returning none exactly on json.JSONDecodeError. The source
makes one model call and one parse attempt; on failure it returns the
default plan rather than raising. -/
def analyze_query {π : Type} (parseJson : String → Option π) (query response : String) :
    AnalyzeOutcome π :=
  let stripped := strip_fences response
  match parseJson (stripStr stripped) with
  | some plan => .parsed plan
  | none => .fallback (default_plan query stripped)

/-! ### OrchestratorAgent: plan execution (execute_plan) -/

/-- Outcome recorded for one step: either the value returned by the
dispatched agent execute call, or the skipped record with its reason. -/
inductive StepOutcome (α : Type) where
  | result (r : α)
  | skipped (reason : String)
deriving DecidableEq

/-- The mutable context threaded through execute_plan: the merged entry
dict plus the step_n_result entries written after each step, keyed here by
the step number n. -/
structure ExecCtx (α : Type) where
  entries : List (String × String)
  step_results : List (ℕ × StepOutcome α)
deriving DecidableEq

/-- Python dict assignment d[k] = v on an association list: replace the
value of an existing key in place, else append the pair. -/
def dictUpd {κ β : Type} [BEq κ] (l : List (κ × β)) (k : κ) (v : β) : List (κ × β) :=
  if l.any (fun kv => kv.1 == k) then
    l.map (fun kv => if kv.1 == k then (kv.1, v) else kv)
  else l ++ [(k, v)]

/-- Python dict.update: fold the assignments of the second dict into the
first, later keys overriding. -/
def dictUpdAll {κ β : Type} [BEq κ] (l upd : List (κ × β)) : List (κ × β) :=
  upd.foldl (fun acc kv => dictUpd acc kv.1 kv.2) l

/-- The context write after each step, context with key step_n_result. -/
def set_step_result {α : Type} (ctx : ExecCtx α) (n : ℕ) (r : StepOutcome α) : ExecCtx α :=
  { ctx with step_results := dictUpd ctx.step_results n r }

/-- An agent execute method: action string and current context to a
result value. The payload type is a parameter because the claims about
execute_plan hold for any agent behaviour. -/
def AgentFun (α : Type) : Type :=
  String → ExecCtx α → α

/-- The name-to-agent mapping passed to execute_plan. -/
def AgentMap (α : Type) : Type :=
  List (String × AgentFun α)

/-- Membership and lookup in the agents dict. -/
def lookup_agent {α : Type} (agents : AgentMap α) (name : String) : Option (AgentFun α) :=
  (agents.find? (fun kv => kv.1 == name)).map Prod.snd

/-- The guard chain of the dispatch in execute_plan: only the four
specialist names are compared, each conjoined with membership in the
agents dict; every other name falls through to the skipped branch. -/
def specialist_lookup {α : Type} (agents : AgentMap α) (name : String) : Option (AgentFun α) :=
  if name = "scout" then lookup_agent agents "scout"
  else if name = "intelligence" then lookup_agent agents "intelligence"
  else if name = "content" then lookup_agent agents "content"
  else if name = "compliance" then lookup_agent agents "compliance"
  else none

/-- One step dispatch of execute_plan: call the matched specialist, else
record the skipped result with the reason string of the source. -/
def dispatch {α : Type} (agents : AgentMap α) (name action : String) (ctx : ExecCtx α) :
    StepOutcome α :=
  match specialist_lookup agents name with
  | some f => .result (f action ctx)
  | none => .skipped ("Agent " ++ name ++ " not available")

/-- One entry of steps_completed. -/
structure StepRecord (α : Type) where
  step : ℕ
  agent : String
  action : String
  result : StepOutcome α
deriving DecidableEq

/-- The body of the execute_plan loop: per step, lower-case the agent
name, dispatch, append the record, write the result into the context. -/
def run_steps {α : Type} (agents : AgentMap α) : ExecCtx α → List PlanStep → List (StepRecord α) × ExecCtx α
  | ctx, [] => ([], ctx)
  | ctx, s :: rest =>
    let name := lowerStr s.agent
    let r := dispatch agents name s.action ctx
    let rest_run := run_steps agents (set_step_result ctx s.step r) rest
    ({ step := s.step, agent := name, action := s.action, result := r } :: rest_run.1,
      rest_run.2)

/-- The results dict execute_plan returns; the wall-clock started_at and
completed_at fields and the never-assigned final_output field are elided. -/
structure ExecResults (α : Type) where
  plan_id : String
  steps_completed : List (StepRecord α)
  status : String
deriving DecidableEq

/-- The initial context of execute_plan: the plan context dict updated
with the entities_involved dict. -/
def init_ctx {α : Type} (plan : Plan) : ExecCtx α :=
  { entries := dictUpdAll plan.context plan.entities_involved, step_results := [] }

/-- OrchestratorAgent.execute_plan. The results record starts with status
in_progress in the source and is overwritten with completed after the
loop; the returned value carries the final assignment. -/
def execute_plan {α : Type} (plan : Plan) (agents : AgentMap α) : ExecResults α :=
  let recs := (run_steps agents (init_ctx plan) plan.steps).1
  { plan_id := plan.plan_id, steps_completed := recs, status := "completed" }

/-! ### AgentManager.process_query -/

/-- One entry of the execution_history list. -/
structure HistoryEntry (α : Type) where
  query : String
  plan : Plan
  results : ExecResults α
  timestamp : String
deriving DecidableEq

/-- The envelope process_query returns. -/
inductive ProcessOutcome (α : Type) where
  | completed (plan : Plan) (results : ExecResults α)
  | rejected (message : String) (plan : Plan)
deriving DecidableEq

/-- AgentManager.process_query, downstream of plan synthesis: analyzed is
the plan returned by analyze_query, approve is the boolean the blocking
HumanApproval prompt returns, and the timestamp is a parameter. The source
assigns the query context and the original query into the plan, gates on
approval when required, executes, and appends to the history only after
execution; the rejected branch returns before the append. -/
def process_query {α : Type} (analyzed : Plan) (agents : AgentMap α)
    (approve require_approval : Bool) (timestamp : String)
    (history : List (HistoryEntry α)) (query : String)
    (qcontext : List (String × String)) :
    ProcessOutcome α × List (HistoryEntry α) :=
  let plan := { analyzed with context := qcontext, original_query := some query }
  if require_approval && !approve then
    (.rejected "Plan rejected" plan, history)
  else
    let results := execute_plan plan agents
    (.completed plan results,
      history ++ [{ query := query, plan := plan, results := results, timestamp := timestamp }])

/-! ### Concrete example data used by the witness theorems -/

/-- Vendor row for the AML witness: PEP check flagged, everything else
clear. -/
def vendor4 : Vendor :=
  { vendor_id := "VEN-001", aml_status := "verified", pep_check := "flagged",
    sanctions_check := "clear", aml_certificate_id := "AML-CERT-001" }

/-- Context carrying the vendor id of vendor4. -/
def ctx4 : AgentContext :=
  { vendor_id := some "VEN-001" }

/-- Property row for the EPC witness: certificate expired in 2023. -/
def prop7 : Property :=
  { property_id := "PROP-2024-5678", asking_price := 300000,
    epc_rating := "C", epc_expiry := "2023-01-01" }

/-- Context carrying the property id of prop7. -/
def ctx7 : AgentContext :=
  { property_id := some "PROP-2024-5678" }

/-- A parse that always fails, standing for json.loads on unparsable
text. -/
def parse5 : String → Option Unit :=
  fun _ => none

/-- Property row for the monotonicity witness. -/
def prop8 : Property :=
  { property_id := "P8", asking_price := 300000, epc_rating := "B",
    epc_expiry := "2026-01-01" }

/-- Buyer below the 95 percent band of prop8. -/
def buyer8a : Buyer :=
  { buyer_id := "B8", first_name := "Ada", last_name := "Smith",
    max_budget := 280000, buyer_type := "first_time_buyer",
    priority_level := "warm", financial_status := "mortgage_in_principle" }

/-- The same buyer with a budget above the asking price. -/
def buyer8b : Buyer :=
  { buyer8a with max_budget := 305000 }

/-- A probe agent returning a recognisable constant, registered under the
orchestrator key exactly as AgentManager wires its own agents dict. -/
def probe2 : AgentFun ℕ :=
  fun _ _ => 7

/-- An agents mapping in which the key orchestrator is present. -/
def agents2 : AgentMap ℕ :=
  [("orchestrator", probe2)]

/-- The default custom plan shape: its only step is assigned to the
orchestrator. -/
def plan2 : Plan :=
  { plan_id := "CUSTOM",
    steps := [{ step := 1, agent := "orchestrator", action := "Process query" }] }

/-- A probe scout agent. -/
def probe2w : AgentFun ℕ :=
  fun _ _ => 5

/-- An agents mapping holding only a scout. -/
def agents2w : AgentMap ℕ :=
  [("scout", probe2w)]

/-- A two-step plan: a mixed-case scout step and a step naming an unknown
agent. -/
def plan2w : Plan :=
  { plan_id := "PLAN-003",
    steps := [{ step := 1, agent := "Scout", action := "Search property database" },
              { step := 2, agent := "pricing", action := "Estimate value" }] }

/-- Property fixture for the matching scenario: asking price 300000. -/
def prop6 : Property :=
  { property_id := "PROP-300K", asking_price := 300000,
    epc_rating := "C", epc_expiry := "2026-05-01" }

/-- Context carrying the property id of prop6. -/
def ctx6 : AgentContext :=
  { property_id := some "PROP-300K" }

/-- Buyer below the 95 percent band: scores 50 plus 15. -/
def buyer6a : Buyer :=
  { buyer_id := "BUY-001", first_name := "Jane", last_name := "Doe",
    max_budget := 280000, buyer_type := "first_time_buyer",
    priority_level := "warm", financial_status := "mortgage_in_principle" }

/-- Hot cash buyer above asking: scores the clamped 100. -/
def buyer6b : Buyer :=
  { buyer_id := "BUY-002", first_name := "John", last_name := "Smith",
    max_budget := 305000, buyer_type := "chain_free_cash",
    priority_level := "hot", financial_status := "cash" }

/-- Hot buyer above asking with an unknown type: scores 80. -/
def buyer6c : Buyer :=
  { buyer_id := "BUY-003", first_name := "Amy", last_name := "Jones",
    max_budget := 350000, buyer_type := "buy_to_let",
    priority_level := "hot", financial_status := "mortgage_agreed" }

/-- Plan fixture standing for the analyze_query output of a matching
query. -/
def plan9 : Plan :=
  { plan_id := "PLAN-012", plan_name := "Buyer Database Matching",
    steps := [{ step := 1, agent := "intelligence",
                action := "Match buyers to property" }] }

/-! ### Helper lemmas -/

/-- Nothing compares lexicographically below the empty string, so the
empty-expiry special case of _validate_epc agrees with the raw
comparison. -/
theorem strGt_empty_left (t : String) : strGt "" t = false := by
  cases t with
  | mk d => cases d <;> rfl

/-- The imperative accumulation of _calculate_match_score equals the sum
of the three independent bonus terms, clamped at 100. -/
theorem match_score_as_bonuses (p : Property) (b : Buyer) :
    calculate_match_score p b =
      min (50 + budget_bonus p b + type_bonus b + hot_bonus b) 100 := by
  simp only [calculate_match_score, budget_bonus, type_bonus, hot_bonus]
  split_ifs <;> norm_num

/-- The budget band term lies between 0 and 20. -/
theorem budget_bonus_range (p : Property) (b : Buyer) :
    0 ≤ budget_bonus p b ∧ budget_bonus p b ≤ 20 := by
  unfold budget_bonus
  split_ifs <;> norm_num

/-- The buyer-type term lies between 0 and 20. -/
theorem type_bonus_range (b : Buyer) :
    0 ≤ type_bonus b ∧ type_bonus b ≤ 20 := by
  unfold type_bonus
  split_ifs <;> norm_num

/-- The hot-priority term lies between 0 and 10. -/
theorem hot_bonus_range (b : Buyer) :
    0 ≤ hot_bonus b ∧ hot_bonus b ≤ 10 := by
  unfold hot_bonus
  split_ifs <;> norm_num

/-- The budget band term does not decrease when the budget grows. -/
theorem budget_bonus_mono (p : Property) (b1 b2 : Buyer)
    (h : b1.max_budget ≤ b2.max_budget) :
    budget_bonus p b1 ≤ budget_bonus p b2 := by
  unfold budget_bonus
  split_ifs <;> linarith

/-- The guard chain of the dispatch equals a membership test against the
four specialist names combined with the agents dict lookup. -/
theorem specialist_lookup_eq {α : Type} (agents : AgentMap α) (name : String) :
    specialist_lookup agents name =
      if name ∈ (["scout", "intelligence", "content", "compliance"] : List String) then
        lookup_agent agents name
      else none := by
  unfold specialist_lookup
  split_ifs <;> simp_all

/-- The execution loop records exactly one entry per plan step. -/
theorem run_steps_length {α : Type} (agents : AgentMap α) (ctx : ExecCtx α)
    (steps : List PlanStep) :
    ((run_steps agents ctx steps).1).length = steps.length := by
  induction steps generalizing ctx with
  | nil => rfl
  | cons s rest ih => simp [run_steps, ih]

/-- Entry i of the execution loop is the dispatch of step i on the
context accumulated over the first i steps, under the lower-cased agent
name. -/
theorem run_steps_getElem {α : Type} (agents : AgentMap α) (ctx : ExecCtx α)
    (steps : List PlanStep) (i : ℕ) :
    ((run_steps agents ctx steps).1)[i]? =
      (steps[i]?).map (fun s =>
        { step := s.step, agent := lowerStr s.agent, action := s.action,
          result := dispatch agents (lowerStr s.agent) s.action
            (run_steps agents ctx (steps.take i)).2 }) := by
  induction steps generalizing ctx i with
  | nil => simp [run_steps]
  | cons s rest ih =>
    cases i with
    | zero => simp [run_steps]
    | succ n => simp [run_steps, ih]

/-! ### Claim theorems -/

/-- Claim C1: for every plan, with any agents mapping and any agent
behaviour, execute_plan returns a result whose status field is
completed; no other terminal status value is produced for the plan
itself. -/
theorem execute_plan_status_completed {α : Type} (plan : Plan) (agents : AgentMap α) :
    (execute_plan plan agents).status = "completed" := rfl

/-- Counterexample to claim C2 as stated: the step agent name
orchestrator is a key present in the supplied agents mapping, yet
execute_plan does not call that agent; it records the skipped result,
because the dispatch chain compares the name only against the four
specialist names. -/
theorem step_dispatch_known_key_cex :
    lookup_agent agents2 "orchestrator" = some probe2
    ∧ (execute_plan plan2 agents2).steps_completed =
        [{ step := 1, agent := "orchestrator", action := "Process query",
           result := .skipped "Agent orchestrator not available" }]
    ∧ (StepOutcome.skipped (α := ℕ) "Agent orchestrator not available"
        ≠ StepOutcome.result 7) :=
  ⟨rfl, rfl, by decide⟩

/-- Claim C2 (amended): per step, the agent name is lower-cased; when the
lower-cased name is one of scout, intelligence, content, compliance and
that key is present in the agents mapping, that agent execute call on the
action and the current context is recorded; otherwise, including names
such as orchestrator that are mapping keys but not among the four, the
recorded result is exactly the skipped status with reason Agent name not
available, and execution continues: one record per step. -/
theorem step_dispatch_rule {α : Type} (plan : Plan) (agents : AgentMap α)
    (i : ℕ) (s : PlanStep) (hs : plan.steps[i]? = some s) :
    (execute_plan plan agents).steps_completed.length = plan.steps.length
    ∧ ((execute_plan plan agents).steps_completed[i]?).map StepRecord.agent
        = some (lowerStr s.agent)
    ∧ (∀ f : AgentFun α,
        lowerStr s.agent ∈ (["scout", "intelligence", "content", "compliance"] : List String) →
        lookup_agent agents (lowerStr s.agent) = some f →
        ((execute_plan plan agents).steps_completed[i]?).map StepRecord.result
          = some (.result (f s.action
              (run_steps agents (init_ctx plan) (plan.steps.take i)).2)))
    ∧ ((lowerStr s.agent ∉ (["scout", "intelligence", "content", "compliance"] : List String)
          ∨ lookup_agent agents (lowerStr s.agent) = none) →
        ((execute_plan plan agents).steps_completed[i]?).map StepRecord.result
          = some (.skipped ("Agent " ++ lowerStr s.agent ++ " not available"))) := by
  have hget := run_steps_getElem agents (init_ctx plan) plan.steps i
  refine ⟨run_steps_length agents (init_ctx plan) plan.steps, ?_, ?_, ?_⟩
  · show ((run_steps agents (init_ctx plan) plan.steps).1[i]?).map StepRecord.agent = _
    rw [hget, hs]
    rfl
  · intro f hmem hf
    have hsl : specialist_lookup agents (lowerStr s.agent) = some f := by
      rw [specialist_lookup_eq, if_pos hmem, hf]
    show ((run_steps agents (init_ctx plan) plan.steps).1[i]?).map StepRecord.result = _
    rw [hget, hs]
    simp [dispatch, hsl]
  · intro h
    have hsl : specialist_lookup agents (lowerStr s.agent) = none := by
      rw [specialist_lookup_eq]
      rcases h with h | h
      · rw [if_neg h]
      · split_ifs <;> simp [h]
    show ((run_steps agents (init_ctx plan) plan.steps).1[i]?).map StepRecord.result = _
    rw [hget, hs]
    simp [dispatch, hsl]

/-- Witness for the amended C2: in a two-step plan, the mixed-case Scout
step reaches the registered scout agent and its value is recorded, while
the step naming the unregistered agent pricing is recorded as skipped. -/
theorem step_dispatch_rule_witness :
    ((execute_plan plan2w agents2w).steps_completed[0]?).map StepRecord.result
      = some (.result 5)
    ∧ ((execute_plan plan2w agents2w).steps_completed[1]?).map StepRecord.result
      = some (.skipped "Agent pricing not available") := by
  constructor
  · exact (step_dispatch_rule plan2w agents2w 0
      { step := 1, agent := "Scout", action := "Search property database" } rfl).2.2.1
      probe2w (by decide) rfl
  · exact (step_dispatch_rule plan2w agents2w 1
      { step := 2, agent := "pricing", action := "Estimate value" } rfl).2.2.2
      (Or.inl (by decide))

/-- Claim C3: for every property record and buyer record, the
buyer-property match score computed by _calculate_match_score equals the
additive formula of the spec: base 50, budget band bonus of 20 or 10,
buyer-type bonus of 20 or 15, hot-priority bonus of 10, clamped to a
maximum of 100. -/
theorem match_score_eq_spec_formula (p : Property) (b : Buyer) :
    calculate_match_score p b = spec_match_score p b :=
  match_score_as_bonuses p b

/-- Claim C4: for every vendor record found for the given vendor id, the
AML check reports aml_passed true exactly when all three vendor fields
hold simultaneously: aml_status verified, pep_check clear and
sanctions_check clear; when any of the three differs the reported flag is
false. -/
theorem aml_passed_iff_all_clear (vendors : List Vendor) (ctx : AgentContext)
    (vid : String) (v : Vendor)
    (hctx : ctx.vendor_id = some vid) (hv : get_vendor vendors vid = some v) :
    (check_aml vendors ctx = .success true v.aml_status v.aml_certificate_id
      ↔ (v.aml_status = "verified" ∧ v.pep_check = "clear" ∧ v.sanctions_check = "clear"))
    ∧ (check_aml vendors ctx = .success false v.aml_status v.aml_certificate_id
      ↔ ¬(v.aml_status = "verified" ∧ v.pep_check = "clear" ∧ v.sanctions_check = "clear")) := by
  simp only [check_aml, hctx, hv]
  constructor
  · simp [AmlResult.success.injEq, Bool.and_eq_true, and_assoc]
  · simp [AmlResult.success.injEq, Bool.and_eq_false_iff, or_iff_not_imp_left,
      Classical.not_not]

/-- Witness for C4, the failing field of the spec scenario: one flagged
PEP check alone flips the AML pass to false. -/
theorem aml_passed_iff_all_clear_witness :
    check_aml [vendor4] ctx4 = .success false "verified" "AML-CERT-001" := by
  have h := (aml_passed_iff_all_clear [vendor4] ctx4 "VEN-001" vendor4 rfl rfl).2
  exact h.mpr (by decide)

/-- Claim C6: when the context carries a property id that resolves to a
property, _match_buyers searches buyers with min_budget int of 0.9 times
asking and max_budget int of 1.2 times asking (at asking 300000 these are
270000 and 360000), scores at most the first 15 rows of that search,
sorts the scored list descending by score and returns the top 5; without
a property id the result is the error record. -/
theorem match_buyers_pipeline :
    match_criteria 300000 =
      { min_budget := some 270000, max_budget := some 360000 }
    ∧ (∀ (props : List Property) (buyers : List Buyer) (ctx : AgentContext),
        ctx.property_id = none →
        match_buyers props buyers ctx = .error "No property_id provided")
    ∧ (∀ (props : List Property) (buyers : List Buyer) (ctx : AgentContext)
        (pid : String) (prop : Property),
        ctx.property_id = some pid →
        get_property props pid = some prop →
        match_buyers props buyers ctx =
          .success (scored_candidates prop buyers).length
            ((List.insertionSort scoredGe (scored_candidates prop buyers)).take 5)
        ∧ (scored_candidates prop buyers).length =
            min 15 (search_buyers buyers (match_criteria prop.asking_price)).length
        ∧ ((List.insertionSort scoredGe (scored_candidates prop buyers)).take 5).length ≤ 5
        ∧ List.Sorted scoredGe
            ((List.insertionSort scoredGe (scored_candidates prop buyers)).take 5)
        ∧ ∀ m ∈ (List.insertionSort scoredGe (scored_candidates prop buyers)).take 5,
            m ∈ scored_candidates prop buyers) := by
  refine ⟨?_, ?_, ?_⟩
  · simp only [match_criteria, pyInt]
    norm_num
  · intro props buyers ctx h
    simp [match_buyers, h]
  · intro props buyers ctx pid prop h1 h2
    refine ⟨?_, ?_, ?_, ?_, ?_⟩
    · simp [match_buyers, h1, h2]
    · simp [scored_candidates, Nat.min_comm]
    · simp [List.length_take]
    · exact List.Pairwise.sublist (List.take_sublist 5 _)
        (List.sorted_insertionSort scoredGe _)
    · intro m hm
      exact (List.perm_insertionSort scoredGe _).subset (List.mem_of_mem_take hm)

/-- Witness for C6, the spec scenario: asking 300000 gives the band
270000 to 360000, all three fixture buyers qualify, and the scored list
comes back sorted 100, 80, 65. -/
theorem match_buyers_pipeline_witness :
    match_buyers [prop6] [buyer6a, buyer6b, buyer6c] ctx6 =
      .success 3
        [{ buyer_id := "BUY-002", name := "John Smith", score := 100,
           buyer_type := "chain_free_cash", priority := "hot" },
         { buyer_id := "BUY-003", name := "Amy Jones", score := 80,
           buyer_type := "buy_to_let", priority := "hot" },
         { buyer_id := "BUY-001", name := "Jane Doe", score := 65,
           buyer_type := "first_time_buyer", priority := "warm" }] := by
  have h := ((match_buyers_pipeline.2.2) [prop6] [buyer6a, buyer6b, buyer6c] ctx6
    "PROP-300K" prop6 rfl rfl).1
  rw [h]
  have hsc : scored_candidates prop6 [buyer6a, buyer6b, buyer6c] =
      [{ buyer_id := "BUY-001", name := "Jane Doe", score := 65,
         buyer_type := "first_time_buyer", priority := "warm" },
       { buyer_id := "BUY-002", name := "John Smith", score := 100,
         buyer_type := "chain_free_cash", priority := "hot" },
       { buyer_id := "BUY-003", name := "Amy Jones", score := 80,
         buyer_type := "buy_to_let", priority := "hot" }] := by
    norm_num [scored_candidates, search_buyers, match_criteria, pyInt, mkScored,
      calculate_match_score, prop6, buyer6a, buyer6b, buyer6c, List.filter]
    decide
  rw [hsc]
  norm_num [List.insertionSort, List.orderedInsert, scoredGe]

/-- Claim C7: for every property record found for the given property id,
the compliance EPC result carries epc_valid true exactly when the
epc_expiry string compares lexicographically greater than the supplied
today string in YYYY-MM-DD form; an empty expiry yields false, which the
raw comparison already does. -/
theorem epc_valid_iff_expiry_gt_today (today : String) (props : List Property)
    (ctx : AgentContext) (pid : String) (prop : Property)
    (hctx : ctx.property_id = some pid) (hp : get_property props pid = some prop) :
    validate_epc today props ctx =
      .success (strGt prop.epc_expiry today) prop.epc_rating prop.epc_expiry
    ∧ (validate_epc today props ctx = .success true prop.epc_rating prop.epc_expiry
        ↔ strGt prop.epc_expiry today = true) := by
  have hmain : validate_epc today props ctx =
      .success (strGt prop.epc_expiry today) prop.epc_rating prop.epc_expiry := by
    simp only [validate_epc, hctx, hp]
    by_cases h : prop.epc_expiry = ""
    · simp [h, strGt_empty_left]
    · simp [h]
  refine ⟨hmain, ?_⟩
  rw [hmain]
  simp [EpcResult.success.injEq]

/-- Witness for C7, the spec scenario: expiry 2023-01-01 evaluated on a
today of 2024-06-01 yields epc_valid false. -/
theorem epc_valid_iff_expiry_gt_today_witness :
    validate_epc "2024-06-01" [prop7] ctx7 = .success false "C" "2023-01-01" := by
  have h := (epc_valid_iff_expiry_gt_today "2024-06-01" [prop7] ctx7
    "PROP-2024-5678" prop7 rfl rfl).1
  exact h

/-- Counterexample to claim C9 as stated: a query whose plan is rejected
at the approval gate is processed, yet no entry is appended to the
execution history; process_query returns from the rejected branch before
the history append, so the history stays empty. -/
theorem process_query_rejected_history_cex :
    (process_query (α := ℕ) plan9 [] false true "2024-06-01T10:00:00" []
        "Match buyers to PROP-300K" []).1 =
      .rejected "Plan rejected"
        { plan9 with context := [], original_query := some "Match buyers to PROP-300K" }
    ∧ (process_query (α := ℕ) plan9 [] false true "2024-06-01T10:00:00" []
        "Match buyers to PROP-300K" []).2 = [] :=
  ⟨rfl, rfl⟩

/-- Claim C9 (amended): process_query returns the completed envelope with
the plan and results and appends the entry of query, plan, results and
timestamp to the history exactly when the plan proceeds to execution
(approval not required, or granted); when approval is required and
refused it returns the rejected envelope with the plan and leaves the
history unchanged, appending nothing. -/
theorem process_query_spec {α : Type} (analyzed : Plan) (agents : AgentMap α)
    (approve require_approval : Bool) (ts : String)
    (history : List (HistoryEntry α)) (query : String)
    (qcontext : List (String × String)) :
    (require_approval = true → approve = false →
      process_query analyzed agents approve require_approval ts history query qcontext =
        (.rejected "Plan rejected"
            { analyzed with context := qcontext, original_query := some query },
          history))
    ∧ (require_approval = false ∨ approve = true →
      process_query analyzed agents approve require_approval ts history query qcontext =
        (.completed { analyzed with context := qcontext, original_query := some query }
            (execute_plan
              { analyzed with context := qcontext, original_query := some query } agents),
          history ++
            [{ query := query,
               plan := { analyzed with context := qcontext, original_query := some query },
               results := execute_plan
                 { analyzed with context := qcontext, original_query := some query } agents,
               timestamp := ts }])) := by
  constructor
  · intro h1 h2
    simp [process_query, h1, h2]
  · intro h
    rcases h with h | h <;> simp [process_query, h]

/-- Witness for the amended C9: an approved query executes (its single
intelligence step is skipped because the agents mapping is empty), the
envelope is completed, and exactly one history entry is appended. -/
theorem process_query_spec_witness :
    process_query (α := ℕ) plan9 [] true true "2024-06-01T10:00:00" []
        "Match buyers to PROP-300K" [] =
      (.completed
          { plan_id := "PLAN-012", plan_name := "Buyer Database Matching",
            steps := [{ step := 1, agent := "intelligence",
                        action := "Match buyers to property" }],
            context := [], original_query := some "Match buyers to PROP-300K" }
          { plan_id := "PLAN-012",
            steps_completed := [{ step := 1, agent := "intelligence",
                                  action := "Match buyers to property",
                                  result := .skipped "Agent intelligence not available" }],
            status := "completed" },
        [{ query := "Match buyers to PROP-300K",
           plan := { plan_id := "PLAN-012", plan_name := "Buyer Database Matching",
                     steps := [{ step := 1, agent := "intelligence",
                                 action := "Match buyers to property" }],
                     context := [], original_query := some "Match buyers to PROP-300K" },
           results := { plan_id := "PLAN-012",
                        steps_completed := [{ step := 1, agent := "intelligence",
                                              action := "Match buyers to property",
                                              result := .skipped "Agent intelligence not available" }],
                        status := "completed" },
           timestamp := "2024-06-01T10:00:00" }]) := by
  exact (process_query_spec (α := ℕ) plan9 [] true true "2024-06-01T10:00:00" []
    "Match buyers to PROP-300K" []).2 (Or.inr rfl)

/-- Claim C10: for every context, the risk score of _assess_risk is
either 20 (no buyer resolved, or a chain_free_cash buyer) or 40 (a
resolved buyer of any other type), so the risk level is always LOW or
MEDIUM and the HIGH branch, which needs a score of at least 60, is
unreachable. -/
theorem assess_risk_level_bounded (buyers : List Buyer) (ctx : AgentContext) :
    ((assess_risk buyers ctx).risk_score = 20 ∨ (assess_risk buyers ctx).risk_score = 40)
    ∧ ((assess_risk buyers ctx).risk_score = 20 ↔
        risk_buyer_lookup buyers ctx = none
        ∨ ∃ b, risk_buyer_lookup buyers ctx = some b ∧ b.buyer_type = "chain_free_cash")
    ∧ ((assess_risk buyers ctx).risk_level = "LOW"
        ∨ (assess_risk buyers ctx).risk_level = "MEDIUM")
    ∧ (assess_risk buyers ctx).risk_level ≠ "HIGH" := by
  rcases hb : risk_buyer_lookup buyers ctx with _ | b
  · simp [assess_risk, hb]
  · by_cases ht : b.buyer_type = "chain_free_cash"
    · simp [assess_risk, hb, ht]
    · simp [assess_risk, hb, ht]

/-- Claim C5: for every model response string whose JSON parse fails
after the code-fence stripping, analyze_query returns, from its single
parse attempt and without a second model call, the default plan with
workflow_type custom, plan_id CUSTOM, exactly one orchestrator step with
the action Process query, human_approval_required true, and the unparsed
response text attached; the failure never escapes as an exception. -/
theorem analyze_query_fallback_on_parse_failure {π : Type} (parseJson : String → Option π)
    (query response : String)
    (h : parseJson (stripStr (strip_fences response)) = none) :
    analyze_query parseJson query response =
      .fallback
        { intent := query, workflow_type := "custom", plan_id := "CUSTOM",
          plan_name := "Custom Workflow", agents_required := ["orchestrator"],
          steps := [{ step := 1, agent := "orchestrator", action := "Process query" }],
          estimated_time_ms := 5000, estimated_cost_usd := 1 / 10,
          human_approval_required := true,
          raw_response := some (strip_fences response) } := by
  simp [analyze_query, h, default_plan]

/-- Witness for C5: an unparsable plain-text response yields exactly the
default plan, with the text attached. -/
theorem analyze_query_fallback_on_parse_failure_witness :
    analyze_query parse5 "Find properties in Leeds" "this is not JSON" =
      .fallback
        { intent := "Find properties in Leeds", workflow_type := "custom",
          plan_id := "CUSTOM", plan_name := "Custom Workflow",
          agents_required := ["orchestrator"],
          steps := [{ step := 1, agent := "orchestrator", action := "Process query" }],
          estimated_time_ms := 5000, estimated_cost_usd := 1 / 10,
          human_approval_required := true,
          raw_response := some "this is not JSON" } := by
  exact analyze_query_fallback_on_parse_failure parse5
    "Find properties in Leeds" "this is not JSON" rfl

/-- Claim C8: for a fixed property with positive asking price, of two
buyers identical except for max_budget, the one with the larger
budget-to-asking ratio never scores lower; and for every property and
buyer the match score lies between 50 and 100. -/
theorem match_score_monotone_and_bounded :
    (∀ (p : Property) (b1 b2 : Buyer), 0 < p.asking_price →
      b1.buyer_id = b2.buyer_id → b1.first_name = b2.first_name →
      b1.last_name = b2.last_name → b1.buyer_type = b2.buyer_type →
      b1.priority_level = b2.priority_level →
      b1.financial_status = b2.financial_status →
      b1.max_budget / p.asking_price ≤ b2.max_budget / p.asking_price →
      calculate_match_score p b1 ≤ calculate_match_score p b2)
    ∧ ∀ (p : Property) (b : Buyer),
        50 ≤ calculate_match_score p b ∧ calculate_match_score p b ≤ 100 := by
  constructor
  · intro p b1 b2 hA _ _ _ htype hprio _ hr
    have hb : b1.max_budget ≤ b2.max_budget :=
      (div_le_div_iff_of_pos_right hA).mp hr
    have hbb := budget_bonus_mono p b1 b2 hb
    have ht2 : type_bonus b1 = type_bonus b2 := by
      simp only [type_bonus, htype]
    have th2 : hot_bonus b1 = hot_bonus b2 := by
      simp only [hot_bonus, hprio]
    rw [match_score_as_bonuses, match_score_as_bonuses, ht2, th2]
    exact min_le_min (by linarith) le_rfl
  · intro p b
    rw [match_score_as_bonuses]
    have h1 := budget_bonus_range p b
    have h2 := type_bonus_range b
    have h3 := hot_bonus_range b
    exact ⟨le_min (by linarith) (by norm_num), min_le_right _ _⟩

/-- Witness for C8: raising a budget from below the 95 percent band to
above asking does not lower the score, and the smaller score already sits
inside the 50 to 100 interval. -/
theorem match_score_monotone_and_bounded_witness :
    calculate_match_score prop8 buyer8a ≤ calculate_match_score prop8 buyer8b
    ∧ 50 ≤ calculate_match_score prop8 buyer8a
    ∧ calculate_match_score prop8 buyer8a ≤ 100 :=
  ⟨match_score_monotone_and_bounded.1 prop8 buyer8a buyer8b (by norm_num [prop8])
      rfl rfl rfl rfl rfl rfl (by norm_num [prop8, buyer8a, buyer8b]),
    match_score_monotone_and_bounded.2 prop8 buyer8a⟩

/-- Witness for C10: with an unresolvable buyer id the risk score sits in
the stated two-value range and the level is not HIGH. -/
theorem assess_risk_level_bounded_witness :
    ((assess_risk [] { buyer_id := some "BUY-404" }).risk_score = 20
      ∨ (assess_risk [] { buyer_id := some "BUY-404" }).risk_score = 40)
    ∧ (assess_risk [] { buyer_id := some "BUY-404" }).risk_level ≠ "HIGH" := by
  have h := assess_risk_level_bounded [] { buyer_id := some "BUY-404" }
  exact ⟨h.1, h.2.2.2⟩

end EstateDemo
